import Mathlib

/-!
Verification of the file-extraction utilities of the repository:
`src/pdf_reader/reader.py` (functions `read_pdf`, `extract_text_by_page`)
and `src/xlsx_reader/reader.py` (functions `read_xlsx`, `extract_sheets`).

The environment (filesystem and the third-party parsing libraries pypdf and
openpyxl) is modelled abstractly by an `Env` structure: a map from path strings
to filesystem entries, plus the two library open operations, each returning
either a parsed in-memory value or an error string (Python exceptions).
The four operations are shallow embeddings of the Python functions: the
existence precondition, the try/except wrapping, and the per-page / per-sheet
loops are translated directly from the source.
-/

namespace Showcase

/-- A cell value in a spreadsheet: heterogeneous (number, string,
timestamp); the empty marker is `Option.none` at the `Cell` level
(Python `None`). -/
inductive CellValue where
  | str (s : String)
  | num (n : Int)
  | timestamp (t : Nat)
deriving DecidableEq, Repr

/-- A spreadsheet cell: either empty (`none`, Python `None`) or a value. -/
abbrev Cell := Option CellValue

/-- A row of a sheet, as yielded by `sheet.iter_rows(values_only=True)`. -/
abbrev Row := List Cell

/-- A named sheet of a workbook with its raw rows. -/
structure Sheet where
  name : String
  cells : List Row
deriving DecidableEq, Repr

/-- A workbook as produced by `openpyxl.load_workbook`: an ordered
collection of named sheets (declaration order). -/
structure Workbook where
  sheets : List Sheet
deriving DecidableEq, Repr

/-- Model of `workbook.sheetnames`: the sheet names in declaration order. -/
def Workbook.sheetnames (wb : Workbook) : List String :=
  wb.sheets.map Sheet.name

/-- Model of `workbook[name]`: lookup of a sheet by name.  In openpyxl, sheet names
are unique and the lookup of a name coming from `sheetnames` always
succeeds; the default for a missing name only totalizes the function. -/
def Workbook.getSheet (wb : Workbook) (name : String) : Sheet :=
  (wb.sheets.find? (fun s => s.name == name)).getD ⟨name, []⟩

/-- Kind of a filesystem entry: `Path.exists()` is true for both. -/
inductive FileKind where
  | file
  | directory
deriving DecidableEq, Repr

/-- The environment of a call: the filesystem (path → entry) and the two
parsing libraries.  `pdfOpen` models `PdfReader(path)` together with
`page.extract_text()` on each page (a PDF document is its ordered list of
page texts); `xlsxOpen` models `load_workbook(path, data_only=True)`.
An `Except.error e` is the library raising an exception whose string
rendering is `e`. -/
structure Env where
  entries : String → Option FileKind
  pdfOpen : String → Except String (List String)
  xlsxOpen : String → Except String Workbook

/-- Model of `Path(file_path).exists()`: true iff the path names any entry
(regular file or directory). -/
def Env.pathExists (env : Env) (p : String) : Bool :=
  (env.entries p).isSome

/-- The two error kinds of the readers: `FileNotFoundError` with its
message, and `ValueError` (parse failure) with its message and, retained
as the cause (`raise ... from e`), the original library error. -/
inductive ExtractError where
  | notFound (msg : String)
  | parseFailure (msg : String) (cause : String)
deriving DecidableEq, Repr

/-- Python `str.strip()`: remove leading and trailing whitespace. -/
def pyStrip (s : String) : String :=
  ⟨(((s.data.dropWhile Char.isWhitespace).reverse.dropWhile
      Char.isWhitespace).reverse)⟩

/-- The page loop of `read_pdf`: keep each page text whose stripped form
is non-empty (`if text.strip(): text_parts.append(text)`). -/
def buildTextParts : List String → List String
  | [] => []
  | text :: rest =>
    if pyStrip text = "" then buildTextParts rest
    else text :: buildTextParts rest

/-- Function `read_pdf`: extract all text from a PDF file, joining the retained
page texts with a blank line (`"\n\n".join(text_parts)`). -/
def read_pdf (env : Env) (file_path : String) : Except ExtractError String :=
  if ¬ env.pathExists file_path then
    .error (.notFound ("PDF file not found: " ++ file_path))
  else
    match env.pdfOpen file_path with
    | .error e => .error (.parseFailure ("Failed to read PDF: " ++ e) e)
    | .ok pages => .ok (String.intercalate "\n\n" (buildTextParts pages))

/-- One entry of the per-page structured result:
`{"page": page_num, "text": text, "char_count": len(text)}`. -/
structure PageResult where
  page : Nat
  text : String
  char_count : Nat
deriving DecidableEq, Repr

/-- The page loop of `extract_text_by_page`:
`for page_num, page in enumerate(reader.pages, start=1)`, appending one
record per page (no blank-skipping). -/
def buildPageResults : Nat → List String → List PageResult
  | _, [] => []
  | page_num, text :: rest =>
    { page := page_num, text := text, char_count := text.length }
      :: buildPageResults (page_num + 1) rest

/-- Function `extract_text_by_page`: extract text from a PDF file, organized by
page. -/
def extract_text_by_page (env : Env) (file_path : String) :
    Except ExtractError (List PageResult) :=
  if ¬ env.pathExists file_path then
    .error (.notFound ("PDF file not found: " ++ file_path))
  else
    match env.pdfOpen file_path with
    | .error e => .error (.parseFailure ("Failed to read PDF: " ++ e) e)
    | .ok pages => .ok (buildPageResults 1 pages)

/-- The row loop shared by `read_xlsx` and `extract_sheets`: append a row
iff it has some non-`None` cell
(`if any(cell is not None for cell in row): data.append(list(row))`). -/
def retainRows : List Row → List Row
  | [] => []
  | row :: rest =>
    if row.any Option.isSome then row :: retainRows rest
    else retainRows rest

/-- Function `read_xlsx`: extract all data from an Excel file as an ordered mapping
(Python dict, insertion order) from sheet name to retained rows. -/
def read_xlsx (env : Env) (file_path : String) :
    Except ExtractError (List (String × List Row)) :=
  if ¬ env.pathExists file_path then
    .error (.notFound ("Excel file not found: " ++ file_path))
  else
    match env.xlsxOpen file_path with
    | .error e =>
      .error (.parseFailure ("Failed to read Excel file: " ++ e) e)
    | .ok workbook =>
      .ok (workbook.sheetnames.map (fun sheet_name =>
        (sheet_name, retainRows (workbook.getSheet sheet_name).cells)))

/-- One entry of the structured sheet result:
`{"name": ..., "rows": len(data), "columns": len(data[0]) if data else 0,
"data": data}`. -/
structure SheetResult where
  name : String
  rows : Nat
  columns : Nat
  data : List Row
deriving DecidableEq, Repr

/-- Function `extract_sheets`: extract data from an Excel file, organized by sheet
with metadata. -/
def extract_sheets (env : Env) (file_path : String) :
    Except ExtractError (List SheetResult) :=
  if ¬ env.pathExists file_path then
    .error (.notFound ("Excel file not found: " ++ file_path))
  else
    match env.xlsxOpen file_path with
    | .error e =>
      .error (.parseFailure ("Failed to read Excel file: " ++ e) e)
    | .ok workbook =>
      .ok (workbook.sheetnames.map (fun sheet_name =>
        let data := retainRows (workbook.getSheet sheet_name).cells
        { name := sheet_name
          rows := data.length
          columns := match data with | [] => 0 | r :: _ => r.length
          data := data }))

/-- A concrete sheet with a header row, an all-`None` row and two
partially filled rows. -/
def sampleEmployees : Sheet :=
  ⟨"Employees",
    [[some (CellValue.str "Name"), some (CellValue.str "Age")],
     [none, none],
     [some (CellValue.str ""), some (CellValue.num 0)],
     [some (CellValue.num 1), none]]⟩

/-- A small concrete workbook used to exercise the definitions: the
`sampleEmployees` sheet plus one sheet whose rows are all entirely
`None`. -/
def sampleWb : Workbook :=
  ⟨[sampleEmployees, ⟨"Empty", [[none], [none, none]]⟩]⟩

/-- A small concrete environment: one readable PDF, one readable
workbook, one directory, everything else missing. -/
def envOk : Env where
  entries := fun p =>
    if p = "doc.pdf" ∨ p = "book.xlsx" then some FileKind.file
    else if p = "somedir" then some FileKind.directory
    else none
  pdfOpen := fun p =>
    if p = "doc.pdf" then .ok ["Hello", "  ", "World"]
    else .error "EOF marker not found"
  xlsxOpen := fun p =>
    if p = "book.xlsx" then .ok sampleWb
    else .error "File is not a zip file"

/-- The retained rows of the "Employees" sheet of `sampleWb`. -/
def sampleData : List Row :=
  [[some (CellValue.str "Name"), some (CellValue.str "Age")],
   [some (CellValue.str ""), some (CellValue.num 0)],
   [some (CellValue.num 1), none]]

/-- The mapping view of `sampleWb`. -/
def sampleMapping : List (String × List Row) :=
  [("Employees", sampleData), ("Empty", [])]

/-- The structured view of `sampleWb`. -/
def sampleSheets : List SheetResult :=
  [⟨"Employees", 3, 2, sampleData⟩, ⟨"Empty", 0, 0, []⟩]

/-! ### Helper lemmas about the embedded loops -/

/-- Stripping yields the empty string exactly on whitespace-only (or
empty) input. -/
theorem pyStrip_eq_empty_iff (s : String) :
    pyStrip s = "" ↔ s.data.all Char.isWhitespace = true := by
  unfold pyStrip
  rw [show ("" : String) = ⟨[]⟩ from rfl]
  constructor
  · intro h
    have h' : ((s.data.dropWhile Char.isWhitespace).reverse.dropWhile
        Char.isWhitespace).reverse = [] := congrArg String.data h
    rw [List.reverse_eq_nil_iff, List.dropWhile_eq_nil_iff] at h'
    rw [List.all_eq_true]
    intro x hx
    rcases (List.takeWhile_append_dropWhile Char.isWhitespace s.data ▸ hx :
        x ∈ _) with h2
    rw [List.mem_append] at h2
    rcases h2 with h2 | h2
    · exact List.mem_takeWhile_imp h2
    · exact h' x (List.mem_reverse.mpr h2)
  · intro h
    have h1 : s.data.dropWhile Char.isWhitespace = [] := by
      rw [List.dropWhile_eq_nil_iff]
      intro x hx
      exact (List.all_eq_true.mp h) x hx
    rw [h1]
    rfl

/-- The `read_pdf` page loop keeps exactly the pages that are not
whitespace-only. -/
theorem buildTextParts_eq_filter (pages : List String) :
    buildTextParts pages
      = pages.filter (fun t => !(t.data.all Char.isWhitespace)) := by
  induction pages with
  | nil => rfl
  | cons text rest ih =>
    unfold buildTextParts
    rw [List.filter_cons]
    by_cases h : pyStrip text = ""
    · have hb : (text.data.all Char.isWhitespace) = true :=
        (pyStrip_eq_empty_iff text).mp h
      simp [h, hb, ih]
    · have hb : (text.data.all Char.isWhitespace) = false := by
        rcases Bool.eq_false_or_eq_true (text.data.all Char.isWhitespace) with
          h2 | h2
        · exact absurd ((pyStrip_eq_empty_iff text).mpr h2) h
        · exact h2
      simp [h, hb, ih]

/-- The per-page loop returns one record per page. -/
theorem buildPageResults_length (n : Nat) (pages : List String) :
    (buildPageResults n pages).length = pages.length := by
  induction pages generalizing n with
  | nil => rfl
  | cons t rest ih => simp [buildPageResults, ih]

/-- The per-page loop keeps every page text unfiltered, in order. -/
theorem buildPageResults_map_text (n : Nat) (pages : List String) :
    (buildPageResults n pages).map PageResult.text = pages := by
  induction pages generalizing n with
  | nil => rfl
  | cons t rest ih => simp [buildPageResults, ih]

/-- The page numbers produced by the per-page loop starting at `n` are
`n, n+1, …`. -/
theorem buildPageResults_map_page (n : Nat) (pages : List String) :
    (buildPageResults n pages).map PageResult.page
      = List.range' n pages.length := by
  induction pages generalizing n with
  | nil => rfl
  | cons t rest ih => simp [buildPageResults, List.range'_succ, ih]

/-- Every record of the per-page loop satisfies
`char_count = length text`. -/
theorem buildPageResults_char_count (n : Nat) (pages : List String) :
    ∀ r ∈ buildPageResults n pages, r.char_count = r.text.length := by
  induction pages generalizing n with
  | nil => intro r hr; cases hr
  | cons t rest ih =>
    intro r hr
    rw [buildPageResults] at hr
    rcases List.mem_cons.mp hr with h | h
    · subst h; rfl
    · exact ih (n + 1) r h

/-- The row loop of the spreadsheet readers is the filter keeping rows
with at least one non-`None` cell. -/
theorem retainRows_eq_filter (rows : List Row) :
    retainRows rows = rows.filter (fun row => row.any Option.isSome) := by
  induction rows with
  | nil => rfl
  | cons row rest ih =>
    unfold retainRows
    rw [List.filter_cons]
    by_cases h : row.any Option.isSome
    · simp [h, ih]
    · simp [h, ih]

/-- Looking a key up in an association list built by pairing each key
with a function of it yields that function's value, for any member key. -/
theorem lookup_map_pair {β : Type} (f : String → β) (l : List String)
    (name : String) (h : name ∈ l) :
    (l.map (fun n => (n, f n))).lookup name = some (f name) := by
  induction l with
  | nil => cases h
  | cons a rest ih =>
    rw [List.map_cons]
    by_cases ha : name = a
    · subst ha
      simp [List.lookup]
    · have hb : (name == a) = false := by
        simp [ha]
      simp [List.lookup, hb]
      rcases List.mem_cons.mp h with h1 | h1
      · exact absurd h1 ha
      · exact ih h1

/-- Searching a list of strings for an element equal to a member finds
that member. -/
theorem find?_beq_self (l : List String) (a : String) (h : a ∈ l) :
    l.find? (fun n => n == a) = some a := by
  induction l with
  | nil => cases h
  | cons b rest ih =>
    by_cases hb : b = a
    · subst hb
      simp [List.find?_cons]
    · have hbb : (b == a) = false := by simp [hb]
      rw [List.find?_cons, hbb]
      rcases List.mem_cons.mp h with h1 | h1
      · exact absurd h1.symm hb
      · exact ih h1

/-- With pairwise-distinct sheet names, searching a sheet list by the
name of a member finds that member. -/
theorem find?_sheet_of_nodup (l : List Sheet)
    (hnd : (l.map Sheet.name).Nodup) (sh : Sheet) (hm : sh ∈ l) :
    l.find? (fun s => s.name == sh.name) = some sh := by
  induction l with
  | nil => cases hm
  | cons a rest ih =>
    rw [List.map_cons, List.nodup_cons] at hnd
    rcases List.mem_cons.mp hm with h1 | h1
    · subst h1
      simp [List.find?_cons]
    · have hne : (a.name == sh.name) = false := by
        have : a.name ≠ sh.name := by
          intro hc
          exact hnd.1 (hc ▸ List.mem_map_of_mem Sheet.name h1)
        simp [this]
      rw [List.find?_cons, hne]
      exact ih hnd.2 h1

/-- With pairwise-distinct sheet names, `workbook[name]` applied to the
name of a member sheet yields that sheet. -/
theorem getSheet_of_nodup (wb : Workbook)
    (hnd : (wb.sheets.map Sheet.name).Nodup) (sh : Sheet)
    (hm : sh ∈ wb.sheets) : wb.getSheet sh.name = sh := by
  unfold Workbook.getSheet
  rw [find?_sheet_of_nodup wb.sheets hnd sh hm]
  rfl

/-- Full case analysis of `read_pdf`: missing path, library failure, or
success with the joined text. -/
theorem read_pdf_cases (env : Env) (p : String) :
    (env.pathExists p = false
      ∧ read_pdf env p = .error (.notFound ("PDF file not found: " ++ p)))
    ∨ (∃ e, env.pathExists p = true ∧ env.pdfOpen p = .error e
      ∧ read_pdf env p
          = .error (.parseFailure ("Failed to read PDF: " ++ e) e))
    ∨ (∃ pages, env.pathExists p = true ∧ env.pdfOpen p = .ok pages
      ∧ read_pdf env p
          = .ok (String.intercalate "\n\n" (buildTextParts pages))) := by
  cases h : env.pathExists p
  · exact Or.inl ⟨rfl, by simp [read_pdf, h]⟩
  · cases h2 : env.pdfOpen p with
    | error e =>
      exact Or.inr (Or.inl ⟨e, rfl, rfl, by simp [read_pdf, h, h2]⟩)
    | ok pages =>
      exact Or.inr (Or.inr ⟨pages, rfl, rfl, by simp [read_pdf, h, h2]⟩)

/-- Full case analysis of `extract_text_by_page`. -/
theorem extract_text_by_page_cases (env : Env) (p : String) :
    (env.pathExists p = false
      ∧ extract_text_by_page env p
          = .error (.notFound ("PDF file not found: " ++ p)))
    ∨ (∃ e, env.pathExists p = true ∧ env.pdfOpen p = .error e
      ∧ extract_text_by_page env p
          = .error (.parseFailure ("Failed to read PDF: " ++ e) e))
    ∨ (∃ pages, env.pathExists p = true ∧ env.pdfOpen p = .ok pages
      ∧ extract_text_by_page env p = .ok (buildPageResults 1 pages)) := by
  cases h : env.pathExists p
  · exact Or.inl ⟨rfl, by simp [extract_text_by_page, h]⟩
  · cases h2 : env.pdfOpen p with
    | error e =>
      exact Or.inr (Or.inl ⟨e, rfl, rfl, by
        simp [extract_text_by_page, h, h2]⟩)
    | ok pages =>
      exact Or.inr (Or.inr ⟨pages, rfl, rfl, by
        simp [extract_text_by_page, h, h2]⟩)

/-- Full case analysis of `read_xlsx`. -/
theorem read_xlsx_cases (env : Env) (p : String) :
    (env.pathExists p = false
      ∧ read_xlsx env p
          = .error (.notFound ("Excel file not found: " ++ p)))
    ∨ (∃ e, env.pathExists p = true ∧ env.xlsxOpen p = .error e
      ∧ read_xlsx env p
          = .error (.parseFailure ("Failed to read Excel file: " ++ e) e))
    ∨ (∃ wb, env.pathExists p = true ∧ env.xlsxOpen p = .ok wb
      ∧ read_xlsx env p = .ok (wb.sheetnames.map (fun sheet_name =>
          (sheet_name, retainRows (wb.getSheet sheet_name).cells)))) := by
  cases h : env.pathExists p
  · exact Or.inl ⟨rfl, by simp [read_xlsx, h]⟩
  · cases h2 : env.xlsxOpen p with
    | error e =>
      exact Or.inr (Or.inl ⟨e, rfl, rfl, by simp [read_xlsx, h, h2]⟩)
    | ok wb =>
      exact Or.inr (Or.inr ⟨wb, rfl, rfl, by simp [read_xlsx, h, h2]⟩)

/-- Full case analysis of `extract_sheets`. -/
theorem extract_sheets_cases (env : Env) (p : String) :
    (env.pathExists p = false
      ∧ extract_sheets env p
          = .error (.notFound ("Excel file not found: " ++ p)))
    ∨ (∃ e, env.pathExists p = true ∧ env.xlsxOpen p = .error e
      ∧ extract_sheets env p
          = .error (.parseFailure ("Failed to read Excel file: " ++ e) e))
    ∨ (∃ wb, env.pathExists p = true ∧ env.xlsxOpen p = .ok wb
      ∧ extract_sheets env p = .ok (wb.sheetnames.map (fun sheet_name =>
          let data := retainRows (wb.getSheet sheet_name).cells
          { name := sheet_name
            rows := data.length
            columns := match data with | [] => 0 | r :: _ => r.length
            data := data }))) := by
  cases h : env.pathExists p
  · exact Or.inl ⟨rfl, by simp [extract_sheets, h]⟩
  · cases h2 : env.xlsxOpen p with
    | error e =>
      exact Or.inr (Or.inl ⟨e, rfl, rfl, by simp [extract_sheets, h, h2]⟩)
    | ok wb =>
      exact Or.inr (Or.inr ⟨wb, rfl, rfl, by simp [extract_sheets, h, h2]⟩)

/-- Looking up a key absent from the key list of a paired association
list yields nothing. -/
theorem lookup_map_pair_none {β : Type} (f : String → β) (l : List String)
    (name : String) (h : name ∉ l) :
    (l.map (fun n => (n, f n))).lookup name = none := by
  induction l with
  | nil => rfl
  | cons a rest ih =>
    rw [List.map_cons]
    have ha : name ≠ a := fun hc => h (hc ▸ List.mem_cons_self a rest)
    have hb : (name == a) = false := by simp [ha]
    simp [List.lookup, hb]
    intro x hx hc
    exact h (hc ▸ List.mem_cons_of_mem a hx)

/-- Every row kept by the row loop has a non-`None` cell. -/
theorem mem_retainRows_has_value {l : List Row} {r : Row}
    (h : r ∈ retainRows l) : ∃ c ∈ r, c ≠ none := by
  rw [retainRows_eq_filter, List.mem_filter] at h
  rcases List.any_eq_true.mp h.2 with ⟨c, hc, hs⟩
  exact ⟨c, hc, Option.isSome_iff_ne_none.mp hs⟩

/-- A `notFound` result from `read_pdf` happens exactly for a missing
path, and carries the fixed message around the path. -/
theorem read_pdf_notFound_elim {env : Env} {p m : String}
    (h : read_pdf env p = .error (.notFound m)) :
    env.pathExists p = false ∧ m = "PDF file not found: " ++ p := by
  rcases read_pdf_cases env p with ⟨hf, h2⟩ | ⟨e, ht, ho, h2⟩ |
    ⟨pg, ht, ho, h2⟩
  · rw [h2] at h
    injection h with h3
    injection h3 with h4
    exact ⟨hf, h4.symm⟩
  · rw [h2] at h
    injection h with h3
    exact ExtractError.noConfusion h3
  · rw [h2] at h
    exact Except.noConfusion h

/-- A `notFound` result from `extract_text_by_page` happens exactly for a
missing path, and carries the fixed message around the path. -/
theorem extract_text_by_page_notFound_elim {env : Env} {p m : String}
    (h : extract_text_by_page env p = .error (.notFound m)) :
    env.pathExists p = false ∧ m = "PDF file not found: " ++ p := by
  rcases extract_text_by_page_cases env p with ⟨hf, h2⟩ | ⟨e, ht, ho, h2⟩ |
    ⟨pg, ht, ho, h2⟩
  · rw [h2] at h
    injection h with h3
    injection h3 with h4
    exact ⟨hf, h4.symm⟩
  · rw [h2] at h
    injection h with h3
    exact ExtractError.noConfusion h3
  · rw [h2] at h
    exact Except.noConfusion h

/-- A `notFound` result from `read_xlsx` happens exactly for a missing
path, and carries the fixed message around the path. -/
theorem read_xlsx_notFound_elim {env : Env} {p m : String}
    (h : read_xlsx env p = .error (.notFound m)) :
    env.pathExists p = false ∧ m = "Excel file not found: " ++ p := by
  rcases read_xlsx_cases env p with ⟨hf, h2⟩ | ⟨e, ht, ho, h2⟩ |
    ⟨wb, ht, ho, h2⟩
  · rw [h2] at h
    injection h with h3
    injection h3 with h4
    exact ⟨hf, h4.symm⟩
  · rw [h2] at h
    injection h with h3
    exact ExtractError.noConfusion h3
  · rw [h2] at h
    exact Except.noConfusion h

/-- A `notFound` result from `extract_sheets` happens exactly for a
missing path, and carries the fixed message around the path. -/
theorem extract_sheets_notFound_elim {env : Env} {p m : String}
    (h : extract_sheets env p = .error (.notFound m)) :
    env.pathExists p = false ∧ m = "Excel file not found: " ++ p := by
  rcases extract_sheets_cases env p with ⟨hf, h2⟩ | ⟨e, ht, ho, h2⟩ |
    ⟨wb, ht, ho, h2⟩
  · rw [h2] at h
    injection h with h3
    injection h3 with h4
    exact ⟨hf, h4.symm⟩
  · rw [h2] at h
    injection h with h3
    exact ExtractError.noConfusion h3
  · rw [h2] at h
    exact Except.noConfusion h

/-- A parse failure from `read_pdf` happens exactly when the library
open fails, with the fixed message and the cause retained. -/
theorem read_pdf_parseFailure_elim {env : Env} {p m c : String}
    (h : read_pdf env p = .error (.parseFailure m c)) :
    env.pathExists p = true ∧ env.pdfOpen p = .error c
      ∧ m = "Failed to read PDF: " ++ c := by
  rcases read_pdf_cases env p with ⟨hf, h2⟩ | ⟨e, ht, ho, h2⟩ |
    ⟨pg, ht, ho, h2⟩
  · rw [h2] at h
    injection h with h3
    exact ExtractError.noConfusion h3
  · rw [h2] at h
    injection h with h3
    injection h3 with h4 h5
    subst h5
    exact ⟨ht, ho, h4.symm⟩
  · rw [h2] at h
    exact Except.noConfusion h

/-- A parse failure from `extract_text_by_page` happens exactly when the
library open fails, with the fixed message and the cause retained. -/
theorem extract_text_by_page_parseFailure_elim {env : Env} {p m c : String}
    (h : extract_text_by_page env p = .error (.parseFailure m c)) :
    env.pathExists p = true ∧ env.pdfOpen p = .error c
      ∧ m = "Failed to read PDF: " ++ c := by
  rcases extract_text_by_page_cases env p with ⟨hf, h2⟩ | ⟨e, ht, ho, h2⟩ |
    ⟨pg, ht, ho, h2⟩
  · rw [h2] at h
    injection h with h3
    exact ExtractError.noConfusion h3
  · rw [h2] at h
    injection h with h3
    injection h3 with h4 h5
    subst h5
    exact ⟨ht, ho, h4.symm⟩
  · rw [h2] at h
    exact Except.noConfusion h

/-- A parse failure from `read_xlsx` happens exactly when the library
open fails, with the fixed message and the cause retained. -/
theorem read_xlsx_parseFailure_elim {env : Env} {p m c : String}
    (h : read_xlsx env p = .error (.parseFailure m c)) :
    env.pathExists p = true ∧ env.xlsxOpen p = .error c
      ∧ m = "Failed to read Excel file: " ++ c := by
  rcases read_xlsx_cases env p with ⟨hf, h2⟩ | ⟨e, ht, ho, h2⟩ |
    ⟨wb, ht, ho, h2⟩
  · rw [h2] at h
    injection h with h3
    exact ExtractError.noConfusion h3
  · rw [h2] at h
    injection h with h3
    injection h3 with h4 h5
    subst h5
    exact ⟨ht, ho, h4.symm⟩
  · rw [h2] at h
    exact Except.noConfusion h

/-- A parse failure from `extract_sheets` happens exactly when the
library open fails, with the fixed message and the cause retained. -/
theorem extract_sheets_parseFailure_elim {env : Env} {p m c : String}
    (h : extract_sheets env p = .error (.parseFailure m c)) :
    env.pathExists p = true ∧ env.xlsxOpen p = .error c
      ∧ m = "Failed to read Excel file: " ++ c := by
  rcases extract_sheets_cases env p with ⟨hf, h2⟩ | ⟨e, ht, ho, h2⟩ |
    ⟨wb, ht, ho, h2⟩
  · rw [h2] at h
    injection h with h3
    exact ExtractError.noConfusion h3
  · rw [h2] at h
    injection h with h3
    injection h3 with h4 h5
    subst h5
    exact ⟨ht, ho, h4.symm⟩
  · rw [h2] at h
    exact Except.noConfusion h

/-- Lookup in a paired association list, in conditional form. -/
theorem lookup_map_pair_eq_if {β : Type} (f : String → β) (l : List String)
    (name : String) :
    (l.map (fun n => (n, f n))).lookup name
      = if name ∈ l then some (f name) else none := by
  by_cases h : name ∈ l
  · rw [if_pos h, lookup_map_pair f l name h]
  · rw [if_neg h, lookup_map_pair_none f l name h]

/-- Searching a mapped list of sheet results by name, when the mapping
assigns each string its own name, in conditional form. -/
theorem find?_map_name (f : String → SheetResult)
    (hf : ∀ n, (f n).name = n) (l : List String) (name : String) :
    (l.map f).find? (fun e => e.name == name)
      = if name ∈ l then some (f name) else none := by
  induction l with
  | nil => simp
  | cons a rest ih =>
    rw [List.map_cons, List.find?_cons]
    by_cases ha : a = name
    · subst ha
      have : ((f a).name == a) = true := by rw [hf a]; simp
      rw [this]
      simp
    · have : ((f a).name == name) = false := by rw [hf a]; simp [ha]
      rw [this, ih]
      by_cases h2 : name ∈ rest
      · rw [if_pos h2, if_pos (List.mem_cons_of_mem a h2)]
      · rw [if_neg h2, if_neg (by
          intro hc
          rcases List.mem_cons.mp hc with hc1 | hc1
          · exact ha hc1.symm
          · exact h2 hc1)]

/-! ### Claim theorems -/

/-- Claim C1: for every valid (parseable) document, `read_pdf` returns
exactly the blank-line join (two newline characters as separator) of
those page texts from `extract_text_by_page` that are not empty and not
whitespace-only (i.e. not entirely whitespace characters), taken in page
order; in particular the empty string when no page has non-blank text. -/
theorem read_pdf_refines_per_page (env : Env) (p s : String)
    (entries : List PageResult)
    (hfull : read_pdf env p = Except.ok s)
    (hpage : extract_text_by_page env p = Except.ok entries) :
    s = String.intercalate "\n\n"
      ((entries.map PageResult.text).filter
        (fun t => !(t.data.all Char.isWhitespace))) := by
  rcases read_pdf_cases env p with ⟨_, h⟩ | ⟨e, _, _, h⟩ |
    ⟨pages, _, ho, h⟩
  · rw [h] at hfull
    exact Except.noConfusion hfull
  · rw [h] at hfull
    exact Except.noConfusion hfull
  · rw [h] at hfull
    rcases extract_text_by_page_cases env p with ⟨_, h2⟩ | ⟨e, _, _, h2⟩ |
      ⟨pages2, _, ho2, h2⟩
    · rw [h2] at hpage
      exact Except.noConfusion hpage
    · rw [h2] at hpage
      exact Except.noConfusion hpage
    · rw [h2] at hpage
      rw [ho] at ho2
      injection ho2 with hpp
      injection hfull with hs
      injection hpage with he
      subst hpp
      rw [← hs, ← he, buildPageResults_map_text,
        buildTextParts_eq_filter]

/-- Witness for C1 on a concrete three-page document, the middle page
whitespace-only. -/
theorem read_pdf_refines_per_page_witness :
    "Hello\n\nWorld" = String.intercalate "\n\n"
      ((([⟨1, "Hello", 5⟩, ⟨2, "  ", 2⟩,
          ⟨3, "World", 5⟩] : List PageResult).map PageResult.text).filter
        (fun t => !(t.data.all Char.isWhitespace))) :=
  read_pdf_refines_per_page envOk "doc.pdf" "Hello\n\nWorld"
    [⟨1, "Hello", 5⟩, ⟨2, "  ", 2⟩, ⟨3, "World", 5⟩] (by rfl) (by rfl)

/-- Claim C2: for every valid document with N pages,
`extract_text_by_page` returns a sequence of length exactly N, whose
page numbers form exactly the sequence 1..N and whose `char_count` field
equals the length of that entry's `text` field. -/
theorem extract_text_by_page_shape (env : Env) (p : String)
    (entries : List PageResult) (pages : List String)
    (hok : extract_text_by_page env p = Except.ok entries)
    (hdoc : env.pdfOpen p = Except.ok pages) :
    entries.length = pages.length
    ∧ entries.map PageResult.page = List.range' 1 pages.length
    ∧ ∀ r ∈ entries, r.char_count = r.text.length := by
  rcases extract_text_by_page_cases env p with ⟨_, h⟩ | ⟨e, _, ho, h⟩ |
    ⟨pages2, _, ho, h⟩
  · rw [h] at hok
    exact Except.noConfusion hok
  · rw [h] at hok
    exact Except.noConfusion hok
  · rw [h] at hok
    rw [hdoc] at ho
    injection ho with hp
    injection hok with he
    subst hp
    subst he
    exact ⟨buildPageResults_length 1 pages, buildPageResults_map_page 1 pages,
      buildPageResults_char_count 1 pages⟩

/-- Witness for C2 on a concrete three-page document. -/
theorem extract_text_by_page_shape_witness :
    ([⟨1, "Hello", 5⟩, ⟨2, "  ", 2⟩,
        ⟨3, "World", 5⟩] : List PageResult).length
      = (["Hello", "  ", "World"] : List String).length
    ∧ ([⟨1, "Hello", 5⟩, ⟨2, "  ", 2⟩,
        ⟨3, "World", 5⟩] : List PageResult).map PageResult.page
      = List.range' 1 (["Hello", "  ", "World"] : List String).length
    ∧ ∀ r ∈ ([⟨1, "Hello", 5⟩, ⟨2, "  ", 2⟩,
        ⟨3, "World", 5⟩] : List PageResult),
        r.char_count = r.text.length :=
  extract_text_by_page_shape envOk "doc.pdf"
    [⟨1, "Hello", 5⟩, ⟨2, "  ", 2⟩, ⟨3, "World", 5⟩]
    ["Hello", "  ", "World"] (by rfl) (by rfl)

/-- Claim C3: for every valid workbook, the mapping view (`read_xlsx`)
and the structured view (`extract_sheets`) agree: the mapping is exactly
the name/data pairs of the structured entries, both list the sheets in
the workbook's declaration order, and lookup by any name in the mapping
gives the `data` of the structured entry found under that name. -/
theorem xlsx_views_agree (env : Env) (p : String)
    (mapping : List (String × List Row)) (sheets : List SheetResult)
    (wb : Workbook)
    (hm : read_xlsx env p = Except.ok mapping)
    (hs : extract_sheets env p = Except.ok sheets)
    (hwb : env.xlsxOpen p = Except.ok wb) :
    mapping = sheets.map (fun e => (e.name, e.data))
    ∧ mapping.map Prod.fst = wb.sheetnames
    ∧ sheets.map SheetResult.name = wb.sheetnames
    ∧ ∀ name, mapping.lookup name
        = (sheets.find? (fun e => e.name == name)).map SheetResult.data := by
  rcases read_xlsx_cases env p with ⟨_, h⟩ | ⟨e0, _, _, h⟩ |
    ⟨wb1, _, ho1, h⟩
  · rw [h] at hm
    exact Except.noConfusion hm
  · rw [h] at hm
    exact Except.noConfusion hm
  rcases extract_sheets_cases env p with ⟨_, h2⟩ | ⟨e0, _, _, h2⟩ |
    ⟨wb2, _, ho2, h2⟩
  · rw [h2] at hs
    exact Except.noConfusion hs
  · rw [h2] at hs
    exact Except.noConfusion hs
  rw [hwb] at ho1 ho2
  injection ho1 with hw1
  injection ho2 with hw2
  subst hw1
  subst hw2
  rw [h] at hm
  rw [h2] at hs
  injection hm with hmv
  injection hs with hsv
  subst hmv
  subst hsv
  refine ⟨?_, ?_, ?_, ?_⟩
  · rw [List.map_map]
    rfl
  · rw [List.map_map]
    show List.map id wb.sheetnames = wb.sheetnames
    exact List.map_id wb.sheetnames
  · rw [List.map_map]
    show List.map id wb.sheetnames = wb.sheetnames
    exact List.map_id wb.sheetnames
  · intro name
    rw [lookup_map_pair_eq_if, find?_map_name _ (fun n => rfl)]
    by_cases hmem : name ∈ wb.sheetnames
    · rw [if_pos hmem, if_pos hmem, Option.map_some']
    · rw [if_neg hmem, if_neg hmem, Option.map_none']

/-- Witness for C3 on the concrete workbook `sampleWb`. -/
theorem xlsx_views_agree_witness :
    sampleMapping = sampleSheets.map (fun e => (e.name, e.data))
    ∧ sampleMapping.map Prod.fst = sampleWb.sheetnames
    ∧ sampleSheets.map SheetResult.name = sampleWb.sheetnames
    ∧ ∀ name, sampleMapping.lookup name
        = (sampleSheets.find? (fun e => e.name == name)).map
            SheetResult.data :=
  xlsx_views_agree envOk "book.xlsx" sampleMapping sampleSheets sampleWb
    (by rfl) (by rfl) (by rfl)

/-- Claim C4: for every sheet of a valid workbook (sheet names pairwise
distinct), both operations retain a row iff at least one of its cells is
not the empty marker; the value both associate with the sheet's name is
exactly the filter of its rows by that criterion, so all-empty rows are
absent, retained rows keep their cells and order, and the relative order
of retained rows is preserved. -/
theorem rows_retained_iff_nonempty (env : Env) (p : String)
    (mapping : List (String × List Row)) (sheets : List SheetResult)
    (wb : Workbook)
    (hm : read_xlsx env p = Except.ok mapping)
    (hs : extract_sheets env p = Except.ok sheets)
    (hwb : env.xlsxOpen p = Except.ok wb)
    (hnd : (wb.sheets.map Sheet.name).Nodup) :
    ∀ sh ∈ wb.sheets,
      mapping.lookup sh.name
        = some (sh.cells.filter (fun row => row.any Option.isSome))
      ∧ (sheets.find? (fun e => e.name == sh.name)).map SheetResult.data
        = some (sh.cells.filter (fun row => row.any Option.isSome)) := by
  rcases read_xlsx_cases env p with ⟨_, h⟩ | ⟨e0, _, _, h⟩ |
    ⟨wb1, _, ho1, h⟩
  · rw [h] at hm
    exact Except.noConfusion hm
  · rw [h] at hm
    exact Except.noConfusion hm
  rcases extract_sheets_cases env p with ⟨_, h2⟩ | ⟨e0, _, _, h2⟩ |
    ⟨wb2, _, ho2, h2⟩
  · rw [h2] at hs
    exact Except.noConfusion hs
  · rw [h2] at hs
    exact Except.noConfusion hs
  rw [hwb] at ho1 ho2
  injection ho1 with hw1
  injection ho2 with hw2
  subst hw1
  subst hw2
  rw [h] at hm
  rw [h2] at hs
  injection hm with hmv
  injection hs with hsv
  subst hmv
  subst hsv
  intro sh hsh
  have hmem : sh.name ∈ wb.sheetnames := List.mem_map_of_mem Sheet.name hsh
  have hget : wb.getSheet sh.name = sh := getSheet_of_nodup wb hnd sh hsh
  constructor
  · rw [lookup_map_pair _ _ _ hmem, hget, retainRows_eq_filter]
  · rw [find?_map_name _ (fun n => rfl), if_pos hmem, Option.map_some']
    show some (retainRows (wb.getSheet sh.name).cells) = _
    rw [hget, retainRows_eq_filter]

/-- Witness for C4 on the `sampleEmployees` sheet of the concrete
workbook `sampleWb`. -/
theorem rows_retained_iff_nonempty_witness :
    sampleMapping.lookup sampleEmployees.name
      = some (sampleEmployees.cells.filter
          (fun row => row.any Option.isSome))
    ∧ (sampleSheets.find? (fun e => e.name == sampleEmployees.name)).map
        SheetResult.data
      = some (sampleEmployees.cells.filter
          (fun row => row.any Option.isSome)) :=
  rows_retained_iff_nonempty envOk "book.xlsx" sampleMapping sampleSheets
    sampleWb (by rfl) (by rfl) (by rfl) (by decide) sampleEmployees
    (List.mem_cons_self _ _)

/-- Claim C5: every sheet result of `extract_sheets` on a valid workbook
has `rows` equal to the length of `data`, and `columns` equal to the
length of the first retained row when `data` is non-empty and `0` when
`data` is empty (only the first row's width is reflected). -/
theorem extract_sheets_metadata (env : Env) (p : String)
    (sheets : List SheetResult)
    (hs : extract_sheets env p = Except.ok sheets) :
    ∀ e ∈ sheets, e.rows = e.data.length
      ∧ (e.data = [] → e.columns = 0)
      ∧ ∀ r rest, e.data = r :: rest → e.columns = r.length := by
  rcases extract_sheets_cases env p with ⟨_, h⟩ | ⟨e0, _, _, h⟩ |
    ⟨wb, _, _, h⟩
  · rw [h] at hs
    exact Except.noConfusion hs
  · rw [h] at hs
    exact Except.noConfusion hs
  · rw [h] at hs
    injection hs with hv
    subst hv
    intro e he
    rcases List.mem_map.mp he with ⟨n, hn, rfl⟩
    refine ⟨rfl, ?_, ?_⟩
    · intro hd
      have hd' : retainRows (wb.getSheet n).cells = [] := hd
      show (match retainRows (wb.getSheet n).cells with
        | [] => 0 | r :: _ => r.length) = 0
      rw [hd']
    · intro r rest hd
      have hd' : retainRows (wb.getSheet n).cells = r :: rest := hd
      show (match retainRows (wb.getSheet n).cells with
        | [] => 0 | r :: _ => r.length) = r.length
      rw [hd']

/-- Witness for C5 on the "Employees" entry of the structured view of
the concrete workbook `sampleWb`. -/
theorem extract_sheets_metadata_witness :
    (SheetResult.mk "Employees" 3 2 sampleData).rows
      = (SheetResult.mk "Employees" 3 2 sampleData).data.length
    ∧ ((SheetResult.mk "Employees" 3 2 sampleData).data = [] →
        (SheetResult.mk "Employees" 3 2 sampleData).columns = 0)
    ∧ ∀ r rest,
        (SheetResult.mk "Employees" 3 2 sampleData).data = r :: rest →
        (SheetResult.mk "Employees" 3 2 sampleData).columns = r.length :=
  extract_sheets_metadata envOk "book.xlsx" sampleSheets (by rfl)
    (SheetResult.mk "Employees" 3 2 sampleData) (List.mem_cons_self _ _)

/-- Claim C6: each of the four operations yields exactly one of a
successful result, a `notFound` error, or a `parseFailure` error (this is
the result type); `notFound` arises exactly when the path does not exist,
with the fixed message containing the original path string; `parseFailure`
arises exactly when the library open fails, with the fixed prefix on the
message and the original error retained as the cause — never a raw
library error. -/
theorem error_taxonomy (env : Env) (p : String) :
    (env.pathExists p = false →
      read_pdf env p = .error (.notFound ("PDF file not found: " ++ p))
      ∧ extract_text_by_page env p
          = .error (.notFound ("PDF file not found: " ++ p))
      ∧ read_xlsx env p
          = .error (.notFound ("Excel file not found: " ++ p))
      ∧ extract_sheets env p
          = .error (.notFound ("Excel file not found: " ++ p)))
    ∧ (∀ e, env.pathExists p = true → env.pdfOpen p = .error e →
      read_pdf env p
          = .error (.parseFailure ("Failed to read PDF: " ++ e) e)
      ∧ extract_text_by_page env p
          = .error (.parseFailure ("Failed to read PDF: " ++ e) e))
    ∧ (∀ e, env.pathExists p = true → env.xlsxOpen p = .error e →
      read_xlsx env p
          = .error (.parseFailure ("Failed to read Excel file: " ++ e) e)
      ∧ extract_sheets env p
          = .error (.parseFailure ("Failed to read Excel file: " ++ e) e))
    ∧ (∀ m, read_pdf env p = .error (.notFound m)
        ∨ extract_text_by_page env p = .error (.notFound m) →
      env.pathExists p = false ∧ m = "PDF file not found: " ++ p)
    ∧ (∀ m, read_xlsx env p = .error (.notFound m)
        ∨ extract_sheets env p = .error (.notFound m) →
      env.pathExists p = false ∧ m = "Excel file not found: " ++ p)
    ∧ (∀ m c, read_pdf env p = .error (.parseFailure m c)
        ∨ extract_text_by_page env p = .error (.parseFailure m c) →
      env.pathExists p = true ∧ env.pdfOpen p = .error c
        ∧ m = "Failed to read PDF: " ++ c)
    ∧ (∀ m c, read_xlsx env p = .error (.parseFailure m c)
        ∨ extract_sheets env p = .error (.parseFailure m c) →
      env.pathExists p = true ∧ env.xlsxOpen p = .error c
        ∧ m = "Failed to read Excel file: " ++ c) := by
  refine ⟨?_, ?_, ?_, ?_, ?_, ?_, ?_⟩
  · intro hf
    exact ⟨by simp [read_pdf, hf], by simp [extract_text_by_page, hf],
      by simp [read_xlsx, hf], by simp [extract_sheets, hf]⟩
  · intro e ht ho
    exact ⟨by simp [read_pdf, ht, ho], by simp [extract_text_by_page, ht, ho]⟩
  · intro e ht ho
    exact ⟨by simp [read_xlsx, ht, ho], by simp [extract_sheets, ht, ho]⟩
  · intro m hm
    rcases hm with hm | hm
    · exact read_pdf_notFound_elim hm
    · exact extract_text_by_page_notFound_elim hm
  · intro m hm
    rcases hm with hm | hm
    · exact read_xlsx_notFound_elim hm
    · exact extract_sheets_notFound_elim hm
  · intro m c hm
    rcases hm with hm | hm
    · exact read_pdf_parseFailure_elim hm
    · exact extract_text_by_page_parseFailure_elim hm
  · intro m c hm
    rcases hm with hm | hm
    · exact read_xlsx_parseFailure_elim hm
    · exact extract_sheets_parseFailure_elim hm

/-- Witness for C6: a missing path yields the `notFound` error with the
path in the message, on a concrete environment. -/
theorem error_taxonomy_witness :
    read_pdf envOk "missing.pdf"
      = .error (.notFound ("PDF file not found: " ++ "missing.pdf")) :=
  ((error_taxonomy envOk "missing.pdf").1 (by rfl)).1

/-- Claim C8 (implicit): the empty marker for spreadsheet cells is
exactly the null cell value `none`; a row is kept by the shared row loop
iff one of its cells is non-`none`, so a row of empty strings or zeros is
retained while an all-`none` row is dropped, and every row appearing in
the output of `read_xlsx` or `extract_sheets` has a non-`none` cell. -/
theorem empty_marker_is_none (rows : List Row) (row : Row) (env : Env)
    (p : String) (mapping : List (String × List Row))
    (sheets : List SheetResult)
    (hm : read_xlsx env p = Except.ok mapping)
    (hs : extract_sheets env p = Except.ok sheets) :
    (row ∈ retainRows rows ↔ row ∈ rows ∧ ∃ c ∈ row, c ≠ none)
    ∧ retainRows [[some (CellValue.str "")], [some (CellValue.num 0)],
        [none, none]]
      = [[some (CellValue.str "")], [some (CellValue.num 0)]]
    ∧ (∀ pr ∈ mapping, ∀ r ∈ pr.2, ∃ c ∈ r, c ≠ none)
    ∧ (∀ e ∈ sheets, ∀ r ∈ e.data, ∃ c ∈ r, c ≠ none) := by
  refine ⟨?_, by rfl, ?_, ?_⟩
  · rw [retainRows_eq_filter, List.mem_filter]
    constructor
    · rintro ⟨h1, h2⟩
      rcases List.any_eq_true.mp h2 with ⟨c, hc, hcs⟩
      exact ⟨h1, c, hc, Option.isSome_iff_ne_none.mp hcs⟩
    · rintro ⟨h1, c, hc, hcn⟩
      exact ⟨h1, List.any_eq_true.mpr
        ⟨c, hc, Option.isSome_iff_ne_none.mpr hcn⟩⟩
  · rcases read_xlsx_cases env p with ⟨_, h⟩ | ⟨e0, _, _, h⟩ |
      ⟨wb, _, _, h⟩
    · rw [h] at hm
      exact Except.noConfusion hm
    · rw [h] at hm
      exact Except.noConfusion hm
    · rw [h] at hm
      injection hm with hmv
      subst hmv
      intro pr hpr r hr
      rcases List.mem_map.mp hpr with ⟨n, _, rfl⟩
      exact mem_retainRows_has_value hr
  · rcases extract_sheets_cases env p with ⟨_, h⟩ | ⟨e0, _, _, h⟩ |
      ⟨wb, _, _, h⟩
    · rw [h] at hs
      exact Except.noConfusion hs
    · rw [h] at hs
      exact Except.noConfusion hs
    · rw [h] at hs
      injection hs with hsv
      subst hsv
      intro e he r hr
      rcases List.mem_map.mp he with ⟨n, _, rfl⟩
      exact mem_retainRows_has_value hr

/-- Witness for C8 on concrete rows and the concrete workbook
`sampleWb`. -/
theorem empty_marker_is_none_witness :
    (([some (CellValue.num 0)] : Row)
        ∈ retainRows [[(none : Cell)], [some (CellValue.num 0)]]
      ↔ ([some (CellValue.num 0)] : Row)
          ∈ [[(none : Cell)], [some (CellValue.num 0)]]
        ∧ ∃ c ∈ ([some (CellValue.num 0)] : Row), c ≠ none)
    ∧ retainRows [[some (CellValue.str "")], [some (CellValue.num 0)],
        [none, none]]
      = [[some (CellValue.str "")], [some (CellValue.num 0)]]
    ∧ (∀ pr ∈ sampleMapping, ∀ r ∈ pr.2, ∃ c ∈ r, c ≠ none)
    ∧ (∀ e ∈ sampleSheets, ∀ r ∈ e.data, ∃ c ∈ r, c ≠ none) :=
  empty_marker_is_none [[(none : Cell)], [some (CellValue.num 0)]]
    [some (CellValue.num 0)] envOk "book.xlsx" sampleMapping sampleSheets
    (by rfl) (by rfl)

/-- Claim C9 (implicit): the existence precondition tests only that the
path exists, not that it is a regular file: a path naming a directory
passes it, all four operations proceed to the library open step, and
when that open fails they fail with `parseFailure`, never `notFound`. -/
theorem directory_yields_parse_error (env : Env) (p e1 e2 : String)
    (hdir : env.entries p = some FileKind.directory)
    (hpdf : env.pdfOpen p = Except.error e1)
    (hxl : env.xlsxOpen p = Except.error e2) :
    env.pathExists p = true
    ∧ read_pdf env p
        = .error (.parseFailure ("Failed to read PDF: " ++ e1) e1)
    ∧ extract_text_by_page env p
        = .error (.parseFailure ("Failed to read PDF: " ++ e1) e1)
    ∧ read_xlsx env p
        = .error (.parseFailure ("Failed to read Excel file: " ++ e2) e2)
    ∧ extract_sheets env p
        = .error (.parseFailure ("Failed to read Excel file: " ++ e2) e2)
    ∧ (∀ m, read_pdf env p ≠ .error (.notFound m))
    ∧ (∀ m, extract_text_by_page env p ≠ .error (.notFound m))
    ∧ (∀ m, read_xlsx env p ≠ .error (.notFound m))
    ∧ (∀ m, extract_sheets env p ≠ .error (.notFound m)) := by
  have ht : env.pathExists p = true := by
    unfold Env.pathExists
    rw [hdir]
    rfl
  refine ⟨ht, by simp [read_pdf, ht, hpdf],
    by simp [extract_text_by_page, ht, hpdf],
    by simp [read_xlsx, ht, hxl], by simp [extract_sheets, ht, hxl],
    ?_, ?_, ?_, ?_⟩
  · intro m hm
    rw [(read_pdf_notFound_elim hm).1] at ht
    exact Bool.noConfusion ht
  · intro m hm
    rw [(extract_text_by_page_notFound_elim hm).1] at ht
    exact Bool.noConfusion ht
  · intro m hm
    rw [(read_xlsx_notFound_elim hm).1] at ht
    exact Bool.noConfusion ht
  · intro m hm
    rw [(extract_sheets_notFound_elim hm).1] at ht
    exact Bool.noConfusion ht

/-- Witness for C9 on the concrete directory entry of `envOk`. -/
theorem directory_yields_parse_error_witness :
    envOk.pathExists "somedir" = true
    ∧ read_pdf envOk "somedir"
        = .error (.parseFailure
            ("Failed to read PDF: " ++ "EOF marker not found")
            "EOF marker not found")
    ∧ extract_text_by_page envOk "somedir"
        = .error (.parseFailure
            ("Failed to read PDF: " ++ "EOF marker not found")
            "EOF marker not found")
    ∧ read_xlsx envOk "somedir"
        = .error (.parseFailure
            ("Failed to read Excel file: " ++ "File is not a zip file")
            "File is not a zip file")
    ∧ extract_sheets envOk "somedir"
        = .error (.parseFailure
            ("Failed to read Excel file: " ++ "File is not a zip file")
            "File is not a zip file")
    ∧ (∀ m, read_pdf envOk "somedir" ≠ .error (.notFound m))
    ∧ (∀ m, extract_text_by_page envOk "somedir" ≠ .error (.notFound m))
    ∧ (∀ m, read_xlsx envOk "somedir" ≠ .error (.notFound m))
    ∧ (∀ m, extract_sheets envOk "somedir" ≠ .error (.notFound m)) :=
  directory_yields_parse_error envOk "somedir" "EOF marker not found"
    "File is not a zip file" (by rfl) (by rfl) (by rfl)

/-- Claim C10 (implicit): a sheet with zero retained rows still appears
in the output of both spreadsheet operations — `read_xlsx` maps its name
to an empty row list and `extract_sheets` emits an entry with
`rows = 0`, `columns = 0` and empty `data` — and both outputs have
exactly one entry per sheet of the workbook. -/
theorem empty_sheet_still_present (env : Env) (p : String)
    (mapping : List (String × List Row)) (sheets : List SheetResult)
    (wb : Workbook)
    (hm : read_xlsx env p = Except.ok mapping)
    (hs : extract_sheets env p = Except.ok sheets)
    (hwb : env.xlsxOpen p = Except.ok wb)
    (hnd : (wb.sheets.map Sheet.name).Nodup) :
    mapping.length = wb.sheets.length
    ∧ sheets.length = wb.sheets.length
    ∧ ∀ sh ∈ wb.sheets, retainRows sh.cells = [] →
        mapping.lookup sh.name = some []
        ∧ sheets.find? (fun e => e.name == sh.name)
            = some ⟨sh.name, 0, 0, []⟩ := by
  rcases read_xlsx_cases env p with ⟨_, h⟩ | ⟨e0, _, _, h⟩ |
    ⟨wb1, _, ho1, h⟩
  · rw [h] at hm
    exact Except.noConfusion hm
  · rw [h] at hm
    exact Except.noConfusion hm
  rcases extract_sheets_cases env p with ⟨_, h2⟩ | ⟨e0, _, _, h2⟩ |
    ⟨wb2, _, ho2, h2⟩
  · rw [h2] at hs
    exact Except.noConfusion hs
  · rw [h2] at hs
    exact Except.noConfusion hs
  rw [hwb] at ho1 ho2
  injection ho1 with hw1
  injection ho2 with hw2
  subst hw1
  subst hw2
  rw [h] at hm
  rw [h2] at hs
  injection hm with hmv
  injection hs with hsv
  subst hmv
  subst hsv
  refine ⟨?_, ?_, ?_⟩
  · rw [List.length_map]
    exact List.length_map wb.sheets Sheet.name
  · rw [List.length_map]
    exact List.length_map wb.sheets Sheet.name
  · intro sh hsh hempty
    have hmem : sh.name ∈ wb.sheetnames := List.mem_map_of_mem Sheet.name hsh
    have hget : wb.getSheet sh.name = sh := getSheet_of_nodup wb hnd sh hsh
    constructor
    · rw [lookup_map_pair _ _ _ hmem, hget, hempty]
    · rw [find?_map_name _ (fun n => rfl), if_pos hmem]
      have hdat : retainRows (wb.getSheet sh.name).cells = [] := by
        rw [hget]
        exact hempty
      show some (SheetResult.mk sh.name
          (retainRows (wb.getSheet sh.name).cells).length
          (match retainRows (wb.getSheet sh.name).cells with
            | [] => 0 | r :: _ => r.length)
          (retainRows (wb.getSheet sh.name).cells))
        = some (SheetResult.mk sh.name 0 0 [])
      rw [hdat]
      rfl

/-- Witness for C10 on the concrete workbook `sampleWb`, whose second
sheet has no retained rows. -/
theorem empty_sheet_still_present_witness :
    sampleMapping.length = sampleWb.sheets.length
    ∧ sampleSheets.length = sampleWb.sheets.length
    ∧ ∀ sh ∈ sampleWb.sheets, retainRows sh.cells = [] →
        sampleMapping.lookup sh.name = some []
        ∧ sampleSheets.find? (fun e => e.name == sh.name)
            = some ⟨sh.name, 0, 0, []⟩ :=
  empty_sheet_still_present envOk "book.xlsx" sampleMapping sampleSheets
    sampleWb (by rfl) (by rfl) (by rfl) (by decide)

end Showcase
